import Mathlib

/-!
Verification of the PET-scan Monte Carlo simulator (two variants):
* `PetScan3` — the ray-geometry variant (`src/petscan3.py`): true ray–circle
  intersection of each emission ray with the detector ring.
* `PetScanPy` — the angle-pair variant (`src/unnamed/part_000`, header
  `pet scan.py`): hits placed directly on the ring at the drawn angles.

Python floats are modelled as real numbers (exact real arithmetic); the
pseudo-random draws consumed by the Python functions are passed as explicit
arguments; Python `None` is modelled by `Option`; a Python `TypeError`
raised while unpacking a tuple is modelled by `Except.error`.
-/

namespace PETModels

/-- Number of detectors in the ring (identical constant in both scripts;
unused by the physics). -/
def NUM_DETECTORS : ℕ := 50

/-- Number of photon emission events (identical in both scripts). -/
def NUM_EVENTS : ℕ := 1000

/-- Radius of the source region / phantom (identical in both scripts). -/
noncomputable def SOURCE_RADIUS : ℝ := 0.5

/-- Radius of the detector ring (identical in both scripts). -/
noncomputable def DETECTOR_RADIUS : ℝ := 5

/-- Probability that a photon pair is correlated (identical in both scripts). -/
noncomputable def CORRELATED_PROB : ℝ := 0.7

/-- `numpy.arctan2 y x`: the angle of the point `(x, y)`, in `(-π, π]`,
modelled over the reals (no signed zeros, `arctan2 0 0 = 0`). -/
noncomputable def arctan2 (y x : ℝ) : ℝ :=
  if 0 < x then Real.arctan (y / x)
  else if x < 0 then
    (if 0 ≤ y then Real.arctan (y / x) + Real.pi
     else Real.arctan (y / x) - Real.pi)
  else
    (if 0 < y then Real.pi / 2
     else if y < 0 then -(Real.pi / 2)
     else 0)

/-- Python's float `%` operator for a positive modulus: `x % y = x - y*⌊x/y⌋`,
the representative of `x` in `[0, y)`. -/
noncomputable def fmod (x y : ℝ) : ℝ := x - y * ⌊x / y⌋

theorem arctan2_zero_pos {x : ℝ} (hx : 0 < x) : arctan2 0 x = 0 := by
  simp [arctan2, hx]

namespace PetScan3

/-- `generate_photon_pair` from `src/petscan3.py`, with the random draw
`angle ~ Uniform(0, 2π)` passed explicitly: a source position on the circle
of radius `SOURCE_RADIUS`. -/
noncomputable def generate_photon_pair (angle : ℝ) : ℝ × ℝ :=
  (SOURCE_RADIUS * Real.cos angle, SOURCE_RADIUS * Real.sin angle)

/-- `photon_to_detector` from `src/petscan3.py`: intersection of the line
through `(x_source, y_source)` with direction `(cos angle, sin angle)` and the
detector ring, via the quadratic `a·t² + b·t + c = 0`.  The Python function
returns `None, None` when the discriminant is negative and a pair of points
otherwise; both shapes are captured by `Option` of a pair of points. -/
noncomputable def photon_to_detector (x_source y_source angle : ℝ) :
    Option ((ℝ × ℝ) × (ℝ × ℝ)) :=
  let dx := Real.cos angle
  let dy := Real.sin angle
  let a := dx ^ 2 + dy ^ 2
  let b := 2 * (x_source * dx + y_source * dy)
  let c := x_source ^ 2 + y_source ^ 2 - DETECTOR_RADIUS ^ 2
  let discriminant := b ^ 2 - 4 * a * c
  if discriminant < 0 then
    none
  else
    let sqrt_discriminant := Real.sqrt discriminant
    let t1 := (-b - sqrt_discriminant) / (2 * a)
    let t2 := (-b + sqrt_discriminant) / (2 * a)
    some ((x_source + t1 * dx, y_source + t1 * dy),
          (x_source + t2 * dx, y_source + t2 * dy))

/-- The local `discriminant` of `photon_to_detector`, as a named function. -/
noncomputable def disc (x_source y_source angle : ℝ) : ℝ :=
  (2 * (x_source * Real.cos angle + y_source * Real.sin angle)) ^ 2
    - 4 * (Real.cos angle ^ 2 + Real.sin angle ^ 2)
        * (x_source ^ 2 + y_source ^ 2 - DETECTOR_RADIUS ^ 2)

/-- The local root `t1` of `photon_to_detector`, as a named function. -/
noncomputable def t1 (x_source y_source angle : ℝ) : ℝ :=
  (-(2 * (x_source * Real.cos angle + y_source * Real.sin angle))
      - Real.sqrt (disc x_source y_source angle))
    / (2 * (Real.cos angle ^ 2 + Real.sin angle ^ 2))

/-- The local root `t2` of `photon_to_detector`, as a named function. -/
noncomputable def t2 (x_source y_source angle : ℝ) : ℝ :=
  (-(2 * (x_source * Real.cos angle + y_source * Real.sin angle))
      + Real.sqrt (disc x_source y_source angle))
    / (2 * (Real.cos angle ^ 2 + Real.sin angle ^ 2))

theorem photon_to_detector_eq (x y θ : ℝ) :
    photon_to_detector x y θ =
      if disc x y θ < 0 then none
      else
        some ((x + t1 x y θ * Real.cos θ, y + t1 x y θ * Real.sin θ),
              (x + t2 x y θ * Real.cos θ, y + t2 x y θ * Real.sin θ)) := rfl

/-- An event record of `src/petscan3.py`: `(photon1, photon2, correlated)`,
where each photon is `None` or a hit point. -/
abbrev Event : Type := Option (ℝ × ℝ) × Option (ℝ × ℝ) × Bool

/-- A retained record of `filter_photons`: `((x1, y1), (x2, y2))`. -/
abbrev FilteredEvent : Type := (ℝ × ℝ) × (ℝ × ℝ)

/-- `detect_photons` from `src/petscan3.py`, with the random draws passed
explicitly: `angle1` is the first `np.random.uniform(0, 2π)` draw and
`angle2draw` the second one, consumed only when `correlated` is false.
Each returned photon is the first point (`photon1, _ = ...`) of
`photon_to_detector`, hence `None` exactly when that call returns `None`. -/
noncomputable def detect_photons (x_source y_source : ℝ) (correlated : Bool)
    (angle1 angle2draw : ℝ) : Option (ℝ × ℝ) × Option (ℝ × ℝ) :=
  let photon1 := (photon_to_detector x_source y_source angle1).map Prod.fst
  let angle2 := if correlated then fmod (angle1 + Real.pi) (2 * Real.pi)
                else angle2draw
  let photon2 := (photon_to_detector x_source y_source angle2).map Prod.fst
  (photon1, photon2)

/-- `filter_photons` from `src/petscan3.py`.  The Python loop begins with the
unpacking `(x1, y1), (x2, y2), correlated = event`; when a photon is `None`
this raises `TypeError` (modelled by `Except.error`), so the body is reached
only when both photons are pairs of floats — and then the source's guard
`x1 is not None and y1 is not None and x2 is not None and y2 is not None`
always holds (a float is never `None`) and is not re-modelled.  The `if
correlated and (abs(delta_phi) >= π - π/4 and abs(delta_phi) <= π + π/4)` /
`elif not correlated` branches both append the pair of hits. -/
noncomputable def filter_photons : List Event → Except String (List FilteredEvent)
  | [] => .ok []
  | e :: rest =>
    match e.1, e.2.1 with
    | some hit1, some hit2 =>
      let delta_phi := arctan2 (hit2.2 - hit1.2) (hit2.1 - hit1.1)
      match filter_photons rest with
      | .error msg => .error msg
      | .ok tail =>
        if e.2.2 = true ∧ (Real.pi - Real.pi / 4 ≤ |delta_phi|
            ∧ |delta_phi| ≤ Real.pi + Real.pi / 4) then
          .ok ((hit1, hit2) :: tail)
        else if e.2.2 = false then
          .ok ((hit1, hit2) :: tail)
        else
          .ok tail
    | _, _ => .error "TypeError: cannot unpack non-iterable NoneType object"

end PetScan3

namespace PetScanPy

/-- `generate_photon_pair` from `src/unnamed/part_000` (`pet scan.py`) — the
same function as in the other script. -/
noncomputable def generate_photon_pair (angle : ℝ) : ℝ × ℝ :=
  (SOURCE_RADIUS * Real.cos angle, SOURCE_RADIUS * Real.sin angle)

/-- An event record of `pet scan.py`: `((x1, y1), (x2, y2), correlated)`;
this variant never produces a `None` hit. -/
abbrev Event : Type := (ℝ × ℝ) × (ℝ × ℝ) × Bool

/-- A retained record of this variant's `filter_photons`. -/
abbrev FilteredEvent : Type := (ℝ × ℝ) × (ℝ × ℝ)

/-- `detect_photons` from `pet scan.py`, with the random draws passed
explicitly (`angle1draw` always consumed, `angle2draw` consumed only when
`correlated` is false).  The source positions `x`, `y` appear in the Python
signature but are never read in the body; the hits are placed directly on
the detector ring at the drawn angles. -/
noncomputable def detect_photons (x y : ℝ) (correlated : Bool)
    (angle1draw angle2draw : ℝ) : (ℝ × ℝ) × (ℝ × ℝ) :=
  let angle1 := angle1draw
  let angle2 := if correlated then fmod (angle1draw + Real.pi) (2 * Real.pi)
                else angle2draw
  ((DETECTOR_RADIUS * Real.cos angle1, DETECTOR_RADIUS * Real.sin angle1),
   (DETECTOR_RADIUS * Real.cos angle2, DETECTOR_RADIUS * Real.sin angle2))

/-- `filter_photons` from `pet scan.py`: unpacking
`(x1, y1), (x2, y2), correlated = event` is the projections
`e.1.1, e.1.2, e.2.1.1, e.2.1.2, e.2.2`; an event is retained exactly when
`correlated and abs(delta_phi - π) < π/4`. -/
noncomputable def filter_photons : List Event → List FilteredEvent
  | [] => []
  | e :: rest =>
    let delta_phi := arctan2 (e.2.1.2 - e.1.2) (e.2.1.1 - e.1.1)
    if e.2.2 = true ∧ |delta_phi - Real.pi| < Real.pi / 4 then
      (e.1, e.2.1) :: filter_photons rest
    else
      filter_photons rest

end PetScanPy

/-! ### Concrete evaluations used by the scenario claims -/

theorem sqrt_hundred : Real.sqrt 100 = 10 := by
  rw [show (100 : ℝ) = 10 ^ 2 by norm_num]
  exact Real.sqrt_sq (by norm_num)

theorem disc_half_zero_zero : PetScan3.disc (1/2) 0 0 = 100 := by
  simp [PetScan3.disc, DETECTOR_RADIUS]
  norm_num

theorem photon_to_detector_half_zero_zero :
    PetScan3.photon_to_detector (1/2) 0 0 = some ((-5, 0), (5, 0)) := by
  rw [PetScan3.photon_to_detector_eq]
  rw [if_neg (by rw [disc_half_zero_zero]; norm_num)]
  simp only [PetScan3.t1, PetScan3.t2, disc_half_zero_zero, sqrt_hundred]
  norm_num

theorem disc_half_zero_pi : PetScan3.disc (1/2) 0 Real.pi = 100 := by
  simp [PetScan3.disc, DETECTOR_RADIUS]
  norm_num

theorem photon_to_detector_half_zero_pi :
    PetScan3.photon_to_detector (1/2) 0 Real.pi = some ((5, 0), (-5, 0)) := by
  rw [PetScan3.photon_to_detector_eq]
  rw [if_neg (by rw [disc_half_zero_pi]; norm_num)]
  simp only [PetScan3.t1, PetScan3.t2, disc_half_zero_pi, sqrt_hundred]
  norm_num

theorem fmod_pi_two_pi : fmod Real.pi (2 * Real.pi) = Real.pi := by
  have hdiv : Real.pi / (2 * Real.pi) = 1 / 2 := by
    rw [div_eq_iff (by positivity)]
    ring
  have hfloor : ⌊Real.pi / (2 * Real.pi)⌋ = 0 := by
    rw [hdiv]
    norm_num
  rw [fmod, hfloor]
  push_cast
  ring

theorem detect_photons_scenario :
    PetScan3.detect_photons (1/2) 0 true 0 0 = (some (-5, 0), some (5, 0)) := by
  simp only [PetScan3.detect_photons]
  rw [if_pos trivial, zero_add, fmod_pi_two_pi,
    photon_to_detector_half_zero_zero, photon_to_detector_half_zero_pi]
  rfl

theorem arctan2_hits : arctan2 ((0:ℝ) - 0) (5 - (-5)) = 0 := by
  rw [show ((0:ℝ) - 0) = 0 by norm_num, show ((5:ℝ) - (-5)) = 10 by norm_num]
  exact arctan2_zero_pos (by norm_num)

theorem filter3_scenario_true :
    PetScan3.filter_photons [(some (-5, 0), some (5, 0), true)] = .ok [] := by
  simp only [PetScan3.filter_photons, arctan2_hits]
  rw [if_neg]
  · norm_num
  · intro h
    have h1 := h.2.1
    have hpi := Real.pi_pos
    rw [abs_zero] at h1
    linarith

theorem filter3_scenario_false :
    PetScan3.filter_photons [(some (-5, 0), some (5, 0), false)] =
      .ok [((-5, 0), (5, 0))] := by
  simp only [PetScan3.filter_photons, arctan2_hits]
  simp

/-! ### General geometry of `photon_to_detector` -/

theorem disc_eq (x y θ : ℝ) :
    PetScan3.disc x y θ
      = (2 * (x * Real.cos θ + y * Real.sin θ)) ^ 2
        - 4 * (x ^ 2 + y ^ 2 - DETECTOR_RADIUS ^ 2) := by
  rw [PetScan3.disc, Real.cos_sq_add_sin_sq]
  ring

theorem t1_eq (x y θ : ℝ) :
    PetScan3.t1 x y θ
      = (-(2 * (x * Real.cos θ + y * Real.sin θ))
          - Real.sqrt (PetScan3.disc x y θ)) / 2 := by
  rw [PetScan3.t1, Real.cos_sq_add_sin_sq]
  norm_num

theorem t2_eq (x y θ : ℝ) :
    PetScan3.t2 x y θ
      = (-(2 * (x * Real.cos θ + y * Real.sin θ))
          + Real.sqrt (PetScan3.disc x y θ)) / 2 := by
  rw [PetScan3.t2, Real.cos_sq_add_sin_sq]
  norm_num

theorem sqrt_disc_sq (x y θ : ℝ) (hD : 0 ≤ PetScan3.disc x y θ) :
    Real.sqrt (PetScan3.disc x y θ) ^ 2
      = (2 * (x * Real.cos θ + y * Real.sin θ)) ^ 2
        - 4 * (x ^ 2 + y ^ 2 - DETECTOR_RADIUS ^ 2) :=
  (Real.sq_sqrt hD).trans (disc_eq x y θ)

theorem hit1_on_ring (x y θ : ℝ) (hD : 0 ≤ PetScan3.disc x y θ) :
    (x + PetScan3.t1 x y θ * Real.cos θ) ^ 2
      + (y + PetScan3.t1 x y θ * Real.sin θ) ^ 2 = DETECTOR_RADIUS ^ 2 := by
  have ha := Real.cos_sq_add_sin_sq θ
  have hc := sqrt_disc_sq x y θ hD
  rw [t1_eq]
  linear_combination
    (((-(2 * (x * Real.cos θ + y * Real.sin θ))
        - Real.sqrt (PetScan3.disc x y θ)) / 2) ^ 2) * ha + hc / 4

theorem hit2_on_ring (x y θ : ℝ) (hD : 0 ≤ PetScan3.disc x y θ) :
    (x + PetScan3.t2 x y θ * Real.cos θ) ^ 2
      + (y + PetScan3.t2 x y θ * Real.sin θ) ^ 2 = DETECTOR_RADIUS ^ 2 := by
  have ha := Real.cos_sq_add_sin_sq θ
  have hc := sqrt_disc_sq x y θ hD
  rw [t2_eq]
  linear_combination
    (((-(2 * (x * Real.cos θ + y * Real.sin θ))
        + Real.sqrt (PetScan3.disc x y θ)) / 2) ^ 2) * ha + hc / 4

theorem sqrt_sq_of_on_ring {u v : ℝ} (h : u ^ 2 + v ^ 2 = DETECTOR_RADIUS ^ 2) :
    Real.sqrt (u ^ 2 + v ^ 2) = DETECTOR_RADIUS := by
  rw [h]
  exact Real.sqrt_sq (by simp [DETECTOR_RADIUS])

theorem disc_pos_of_inside (x y θ : ℝ)
    (h : x ^ 2 + y ^ 2 < DETECTOR_RADIUS ^ 2) : 0 < PetScan3.disc x y θ := by
  rw [disc_eq]
  nlinarith [sq_nonneg (2 * (x * Real.cos θ + y * Real.sin θ))]

theorem abs_lt_of_sq_lt {b s : ℝ} (hs0 : 0 ≤ s) (hlt : b ^ 2 < s ^ 2) :
    -s < b ∧ b < s := by
  constructor <;> nlinarith

theorem t_signs (x y θ : ℝ) (h : x ^ 2 + y ^ 2 < DETECTOR_RADIUS ^ 2) :
    PetScan3.t1 x y θ < 0 ∧ 0 < PetScan3.t2 x y θ := by
  have hD := disc_pos_of_inside x y θ h
  have hs0 := Real.sqrt_nonneg (PetScan3.disc x y θ)
  have hc := sqrt_disc_sq x y θ hD.le
  have hlt : (2 * (x * Real.cos θ + y * Real.sin θ)) ^ 2
      < Real.sqrt (PetScan3.disc x y θ) ^ 2 := by
    rw [hc]
    nlinarith
  have hb := abs_lt_of_sq_lt hs0 hlt
  rw [t1_eq, t2_eq]
  constructor
  · linarith [hb.1]
  · linarith [hb.2]

theorem roots_factor (x y θ t : ℝ) (hD : 0 ≤ PetScan3.disc x y θ)
    (hring : (x + t * Real.cos θ) ^ 2 + (y + t * Real.sin θ) ^ 2
      = DETECTOR_RADIUS ^ 2) :
    (t - PetScan3.t1 x y θ) * (t - PetScan3.t2 x y θ) = 0 := by
  have ha := Real.cos_sq_add_sin_sq θ
  have hc := sqrt_disc_sq x y θ hD
  rw [t1_eq, t2_eq]
  linear_combination hring - t ^ 2 * ha - hc / 4

theorem photon_to_detector_some {x y θ : ℝ} {p q : ℝ × ℝ}
    (h : PetScan3.photon_to_detector x y θ = some (p, q)) :
    0 ≤ PetScan3.disc x y θ
    ∧ p = (x + PetScan3.t1 x y θ * Real.cos θ,
           y + PetScan3.t1 x y θ * Real.sin θ)
    ∧ q = (x + PetScan3.t2 x y θ * Real.cos θ,
           y + PetScan3.t2 x y θ * Real.sin θ) := by
  rw [PetScan3.photon_to_detector_eq] at h
  by_cases hd : PetScan3.disc x y θ < 0
  · rw [if_pos hd] at h
    exact absurd h (by simp)
  · rw [if_neg hd] at h
    simp only [Option.some.injEq, Prod.mk.injEq] at h
    exact ⟨not_lt.mp hd, h.1.symm, h.2.symm⟩

/-! ### Unfolding equations and list lemmas for the two filters -/

theorem filter3_nil : PetScan3.filter_photons [] = .ok [] := rfl

theorem filter3_cons_some (p q : ℝ × ℝ) (c : Bool)
    (rest : List PetScan3.Event) :
    PetScan3.filter_photons ((some p, some q, c) :: rest)
      = match PetScan3.filter_photons rest with
        | .error msg => .error msg
        | .ok tail =>
          if c = true ∧ (Real.pi - Real.pi / 4 ≤ |arctan2 (q.2 - p.2) (q.1 - p.1)|
              ∧ |arctan2 (q.2 - p.2) (q.1 - p.1)| ≤ Real.pi + Real.pi / 4) then
            .ok ((p, q) :: tail)
          else if c = false then
            .ok ((p, q) :: tail)
          else
            .ok tail := rfl

theorem filter3_cons_none1 (h2 : Option (ℝ × ℝ)) (c : Bool)
    (rest : List PetScan3.Event) :
    PetScan3.filter_photons ((none, h2, c) :: rest)
      = .error "TypeError: cannot unpack non-iterable NoneType object" := by
  cases h2 <;> rfl

theorem filter3_length : ∀ (l : List PetScan3.Event)
    (out : List PetScan3.FilteredEvent),
    PetScan3.filter_photons l = .ok out → out.length ≤ l.length := by
  intro l
  induction l with
  | nil =>
    intro out h
    rw [filter3_nil] at h
    cases h
    simp
  | cons e rest ih =>
    intro out h
    obtain ⟨h1, h2, c⟩ := e
    cases h1 with
    | none => rw [filter3_cons_none1] at h; cases h
    | some p =>
      cases h2 with
      | none =>
        have : PetScan3.filter_photons ((some p, none, c) :: rest)
            = .error "TypeError: cannot unpack non-iterable NoneType object" := rfl
        rw [this] at h
        cases h
      | some q =>
        rw [filter3_cons_some] at h
        split at h
        · exact absurd h (by simp)
        · rename_i tail heq
          have htail := ih tail heq
          split at h
          · injection h with h'
            subst h'
            simp only [List.length_cons]
            omega
          · split at h
            · injection h with h'
              subst h'
              simp only [List.length_cons]
              omega
            · injection h with h'
              subst h'
              simp only [List.length_cons]
              omega

theorem filter3_cons_false (p q : ℝ × ℝ) (rest : List PetScan3.Event) :
    PetScan3.filter_photons ((some p, some q, false) :: rest)
      = Except.map (fun tail => (p, q) :: tail)
          (PetScan3.filter_photons rest) := by
  rw [filter3_cons_some]
  cases hrec : PetScan3.filter_photons rest with
  | error msg => rfl
  | ok tail => simp [Except.map]

theorem filterA_nil : PetScanPy.filter_photons [] = [] := rfl

theorem filterA_cons (e : PetScanPy.Event) (rest : List PetScanPy.Event) :
    PetScanPy.filter_photons (e :: rest)
      = if e.2.2 = true
            ∧ |arctan2 (e.2.1.2 - e.1.2) (e.2.1.1 - e.1.1) - Real.pi|
                < Real.pi / 4 then
          (e.1, e.2.1) :: PetScanPy.filter_photons rest
        else
          PetScanPy.filter_photons rest := rfl

/-- The chord-angle condition under which the angle-pair filter keeps a
correlated event. -/
def keepP (p : PetScanPy.FilteredEvent) : Prop :=
  |arctan2 (p.2.2 - p.1.2) (p.2.1 - p.1.1) - Real.pi| < Real.pi / 4

theorem filterA_kept : ∀ (l : List PetScanPy.Event) p,
    p ∈ PetScanPy.filter_photons l → keepP p := by
  intro l
  induction l with
  | nil =>
    intro p h
    rw [filterA_nil] at h
    cases h
  | cons e rest ih =>
    intro p h
    rw [filterA_cons] at h
    by_cases hc : e.2.2 = true
        ∧ |arctan2 (e.2.1.2 - e.1.2) (e.2.1.1 - e.1.1) - Real.pi| < Real.pi / 4
    · rw [if_pos hc] at h
      rcases List.mem_cons.mp h with h1 | h2
      · subst h1
        exact hc.2
      · exact ih p h2
    · rw [if_neg hc] at h
      exact ih p h

theorem filterA_fixed_of_kept :
    ∀ m : List PetScanPy.FilteredEvent, (∀ p ∈ m, keepP p) →
      PetScanPy.filter_photons (m.map (fun p => (p.1, p.2, true))) = m := by
  intro m
  induction m with
  | nil => intro _; rfl
  | cons p rest ih =>
    intro h
    rw [List.map_cons, filterA_cons]
    rw [if_pos ⟨rfl, h p (List.mem_cons_self _ _)⟩]
    rw [ih fun q hq => h q (List.mem_cons_of_mem _ hq)]

theorem filterA_length : ∀ l : List PetScanPy.Event,
    (PetScanPy.filter_photons l).length ≤ l.length := by
  intro l
  induction l with
  | nil => simp [filterA_nil]
  | cons e rest ih =>
    rw [filterA_cons]
    split
    · simpa using ih
    · exact le_trans ih (Nat.le_succ _)

theorem detectA_eq (x y : ℝ) (c : Bool) (a1 a2 : ℝ) :
    PetScanPy.detect_photons x y c a1 a2
      = ((DETECTOR_RADIUS * Real.cos a1, DETECTOR_RADIUS * Real.sin a1),
         (DETECTOR_RADIUS
            * Real.cos (if c then fmod (a1 + Real.pi) (2 * Real.pi) else a2),
          DETECTOR_RADIUS
            * Real.sin (if c then fmod (a1 + Real.pi) (2 * Real.pi) else a2))) :=
  rfl

theorem ring_point_on_ring (a : ℝ) :
    (DETECTOR_RADIUS * Real.cos a) ^ 2 + (DETECTOR_RADIUS * Real.sin a) ^ 2
      = DETECTOR_RADIUS ^ 2 := by
  linear_combination DETECTOR_RADIUS ^ 2 * Real.cos_sq_add_sin_sq a

/-! ### The claims -/

/-- C1: the claim asserts that in the ray-geometry variant the scenario
`source = (0.5, 0)`, `angle1 = 0`, `angle2 = π`, `correlated = true` yields
`hit1 ≈ (5, 0)`, `hit2 ≈ (-5, 0)`, `deltaPhi = π` and acceptance.  It is
false: `detect_photons` takes the first (smaller-root) intersection of each
ray, giving `hit1 = (-5, 0)` and `hit2 = (5, 0)` — the opposite of the
claim — and `filter_photons` rejects the event (`deltaPhi = 0`). -/
theorem C1_counterexample :
    PetScan3.detect_photons (1/2) 0 true 0 0 = (some (-5, 0), some (5, 0))
    ∧ (((-5 : ℝ), (0 : ℝ)) ≠ ((5 : ℝ), (0 : ℝ)))
    ∧ PetScan3.filter_photons [(some (-5, 0), some (5, 0), true)] = .ok []
    ∧ ((Except.ok ([] : List PetScan3.FilteredEvent)
          : Except String (List PetScan3.FilteredEvent))
        ≠ .ok [(((-5 : ℝ), (0 : ℝ)), ((5 : ℝ), (0 : ℝ)))]) := by
  refine ⟨detect_photons_scenario, ?_, filter3_scenario_true, ?_⟩
  · simp only [ne_eq, Prod.mk.injEq, not_and]
    norm_num
  · simp

/-- C1 (amended): for `source = (0.5, 0)` (i.e. `generate_photon_pair 0`)
with `angle1 = 0` and `correlated = true` (so `angle2 = π`), the
ray-geometry variant projects to `hit1 = (-5, 0)` and `hit2 = (5, 0)`, the
filter's `deltaPhi = atan2(0, 10) = 0`, and the event is rejected by the
filter. -/
theorem C1_amended_scenario :
    PetScan3.generate_photon_pair 0 = (1/2, 0)
    ∧ PetScan3.detect_photons (1/2) 0 true 0 0 = (some (-5, 0), some (5, 0))
    ∧ arctan2 ((0 : ℝ) - 0) (5 - (-5)) = 0
    ∧ PetScan3.filter_photons [(some (-5, 0), some (5, 0), true)] = .ok [] := by
  refine ⟨?_, detect_photons_scenario, arctan2_hits, filter3_scenario_true⟩
  simp [PetScan3.generate_photon_pair, SOURCE_RADIUS]
  norm_num

/-- C2: the spec claims the ray-geometry filter never raises and handles a
null hit by skipping the event.  The code instead unpacks
`(x1, y1), (x2, y2), correlated = event` before its `is not None` guard can
run, so a null hit raises `TypeError`: evaluating the model at the failing
input `[(None, None, True)]` yields an error, not a skip. -/
theorem C2_null_hit_raises :
    PetScan3.filter_photons [(none, none, true)]
      = .error "TypeError: cannot unpack non-iterable NoneType object" :=
  filter3_cons_none1 none true []

/-- C3: the claim asserts idempotence of re-filtering (all events re-tagged
`correlated = true`) in both variants.  It is false for the ray-geometry
variant: the uncorrelated event with hits `(-5, 0)`, `(5, 0)` is accepted
unconditionally, but re-filtering its output with `correlated = true`
rejects it (`deltaPhi = 0` is outside the acceptance window). -/
theorem C3_counterexample :
    PetScan3.filter_photons [(some (-5, 0), some (5, 0), false)]
      = .ok [((-5, 0), (5, 0))]
    ∧ PetScan3.filter_photons
        (([(((-5 : ℝ), (0 : ℝ)), ((5 : ℝ), (0 : ℝ)))]
          : List PetScan3.FilteredEvent).map
            fun p => (some p.1, some p.2, true))
      = .ok []
    ∧ (Except.ok [(((-5 : ℝ), (0 : ℝ)), ((5 : ℝ), (0 : ℝ)))]
        ≠ (.ok ([] : List PetScan3.FilteredEvent)
            : Except String (List PetScan3.FilteredEvent))) := by
  refine ⟨filter3_scenario_false, ?_, by simp⟩
  simp only [List.map_cons, List.map_nil]
  exact filter3_scenario_true

/-- C3 (amended): in the angle-pair variant, re-running `filter_photons` on
its own output, with every retained event re-tagged `correlated = true`,
returns exactly the same list; in the ray-geometry variant this fails
(see the counterexample). -/
theorem C3_amended_anglepair_idempotent (l : List PetScanPy.Event) :
    PetScanPy.filter_photons
        ((PetScanPy.filter_photons l).map fun p => (p.1, p.2, true))
      = PetScanPy.filter_photons l :=
  filterA_fixed_of_kept _ (filterA_kept l)

/-- C4: the claim asserts that the smaller-root point `t1` is the forward
hit along the ray direction.  It is false: for `source = (0.5, 0)`,
`angle = 0` the `t1` point is `(-5, 0)`, which is not of the form
`source + t·(cos 0, sin 0)` for any `t ≥ 0` — it lies behind the source. -/
theorem C4_counterexample :
    (PetScan3.photon_to_detector (1/2) 0 0).map Prod.fst
      = some ((-5 : ℝ), (0 : ℝ))
    ∧ ¬ ∃ t : ℝ, 0 ≤ t
        ∧ ((-5 : ℝ) = 1/2 + t * Real.cos 0 ∧ (0 : ℝ) = 0 + t * Real.sin 0) := by
  constructor
  · rw [photon_to_detector_half_zero_zero]
    rfl
  · rintro ⟨t, ht, h1, -⟩
    rw [Real.cos_zero, mul_one] at h1
    linarith

/-- C4 (amended): the first point returned by `photon_to_detector` is
computed from the smaller quadratic root `t1 = (-b - √D)/(2a)`, but for a
source strictly inside the detector ring this is the backward crossing
(`t1 < 0`, against the direction of travel); the second point, from `t2`,
is the unique ring crossing in the direction of travel
(`t2 > 0`, and any forward parameter `t ≥ 0` whose point lies on the ring
equals `t2`). -/
theorem C4_amended_t1_backward (x y θ : ℝ)
    (h : x ^ 2 + y ^ 2 < DETECTOR_RADIUS ^ 2) :
    PetScan3.photon_to_detector x y θ
      = some ((x + PetScan3.t1 x y θ * Real.cos θ,
               y + PetScan3.t1 x y θ * Real.sin θ),
              (x + PetScan3.t2 x y θ * Real.cos θ,
               y + PetScan3.t2 x y θ * Real.sin θ))
    ∧ PetScan3.t1 x y θ < 0
    ∧ 0 < PetScan3.t2 x y θ
    ∧ ∀ t : ℝ, 0 ≤ t →
        (x + t * Real.cos θ) ^ 2 + (y + t * Real.sin θ) ^ 2
          = DETECTOR_RADIUS ^ 2 →
        t = PetScan3.t2 x y θ := by
  have hD := disc_pos_of_inside x y θ h
  have hsigns := t_signs x y θ h
  refine ⟨?_, hsigns.1, hsigns.2, ?_⟩
  · rw [PetScan3.photon_to_detector_eq, if_neg (not_lt.mpr hD.le)]
  · intro t ht hring
    have hf := roots_factor x y θ t hD.le hring
    rcases mul_eq_zero.mp hf with h1 | h2
    · exfalso
      have ht1 := sub_eq_zero.mp h1
      rw [← ht1] at hsigns
      linarith [hsigns.1]
    · exact sub_eq_zero.mp h2

theorem C4_amended_witness :
    ((1/2 : ℝ) ^ 2 + (0 : ℝ) ^ 2 < DETECTOR_RADIUS ^ 2)
    ∧ PetScan3.t1 (1/2) 0 0 < 0 :=
  have h : (1/2 : ℝ) ^ 2 + (0 : ℝ) ^ 2 < DETECTOR_RADIUS ^ 2 := by
    norm_num [DETECTOR_RADIUS]
  ⟨h, (C4_amended_t1_backward (1/2) 0 0 h).2.1⟩

/-- C5: an event whose ground-truth `correlated` flag is false is skipped by
the angle-pair variant's filter, and accepted unconditionally by the
ray-geometry variant's filter when both hits are present. -/
theorem C5_uncorrelated_split :
    (∀ (p q : ℝ × ℝ) (rest : List PetScanPy.Event),
        PetScanPy.filter_photons ((p, q, false) :: rest)
          = PetScanPy.filter_photons rest)
    ∧ ∀ (p q : ℝ × ℝ) (rest : List PetScan3.Event),
        PetScan3.filter_photons ((some p, some q, false) :: rest)
          = Except.map (fun tail => (p, q) :: tail)
              (PetScan3.filter_photons rest) := by
  constructor
  · intro p q rest
    rw [filterA_cons, if_neg (by simp)]
  · exact fun p q rest => filter3_cons_false p q rest

/-- C6: whenever the discriminant of the ray–circle quadratic is negative,
`photon_to_detector` returns `none` (the function is total: it cannot
fail in any other way). -/
theorem C6_neg_disc_none (x y θ : ℝ) (h : PetScan3.disc x y θ < 0) :
    PetScan3.photon_to_detector x y θ = none := by
  rw [PetScan3.photon_to_detector_eq, if_pos h]

theorem C6_witness :
    PetScan3.disc 10 0 (Real.pi / 2) < 0
    ∧ PetScan3.photon_to_detector 10 0 (Real.pi / 2) = none :=
  have h : PetScan3.disc 10 0 (Real.pi / 2) < 0 := by
    simp [PetScan3.disc, DETECTOR_RADIUS]
    norm_num
  ⟨h, C6_neg_disc_none 10 0 (Real.pi / 2) h⟩

/-- C7: every non-null hit point produced by either variant lies at distance
exactly `DETECTOR_RADIUS` from the origin (exact over real arithmetic). -/
theorem C7_hits_on_ring :
    (∀ (x y θ : ℝ) (p q : ℝ × ℝ),
        PetScan3.photon_to_detector x y θ = some (p, q) →
          Real.sqrt (p.1 ^ 2 + p.2 ^ 2) = DETECTOR_RADIUS
          ∧ Real.sqrt (q.1 ^ 2 + q.2 ^ 2) = DETECTOR_RADIUS)
    ∧ ∀ (x y : ℝ) (c : Bool) (a1 a2 : ℝ),
        Real.sqrt ((PetScanPy.detect_photons x y c a1 a2).1.1 ^ 2
            + (PetScanPy.detect_photons x y c a1 a2).1.2 ^ 2) = DETECTOR_RADIUS
        ∧ Real.sqrt ((PetScanPy.detect_photons x y c a1 a2).2.1 ^ 2
            + (PetScanPy.detect_photons x y c a1 a2).2.2 ^ 2)
              = DETECTOR_RADIUS := by
  constructor
  · intro x y θ p q h
    obtain ⟨hD, hp, hq⟩ := photon_to_detector_some h
    constructor
    · rw [hp]
      exact sqrt_sq_of_on_ring (hit1_on_ring x y θ hD)
    · rw [hq]
      exact sqrt_sq_of_on_ring (hit2_on_ring x y θ hD)
  · intro x y c a1 a2
    rw [detectA_eq]
    exact ⟨sqrt_sq_of_on_ring (ring_point_on_ring a1),
           sqrt_sq_of_on_ring (ring_point_on_ring _)⟩

theorem C7_witness :
    Real.sqrt ((-5 : ℝ) ^ 2 + (0 : ℝ) ^ 2) = DETECTOR_RADIUS
    ∧ Real.sqrt ((5 : ℝ) ^ 2 + (0 : ℝ) ^ 2) = DETECTOR_RADIUS :=
  C7_hits_on_ring.1 (1/2) 0 0 (-5, 0) (5, 0) photon_to_detector_half_zero_zero

/-- C8: in each variant the filtered output list is never longer than the
input event list (for the ray-geometry variant, whenever the filter returns
normally). -/
theorem C8_filter_not_longer :
    (∀ (l : List PetScan3.Event) (out : List PetScan3.FilteredEvent),
        PetScan3.filter_photons l = .ok out → out.length ≤ l.length)
    ∧ ∀ l : List PetScanPy.Event,
        (PetScanPy.filter_photons l).length ≤ l.length :=
  ⟨filter3_length, filterA_length⟩

theorem C8_witness :
    ([(((-5 : ℝ), (0 : ℝ)), ((5 : ℝ), (0 : ℝ)))]
        : List PetScan3.FilteredEvent).length
      ≤ ([(some (-5, 0), some (5, 0), false)] : List PetScan3.Event).length :=
  C8_filter_not_longer.1 _ _ filter3_scenario_false

/-- C9: the angle-pair variant's `detect_photons` ignores its
source-coordinate arguments: two calls with different source positions but
the same correlated flag and the same random angle draws return identical
hit pairs. -/
theorem C9_source_ignored (x y x' y' : ℝ) (c : Bool) (a1 a2 : ℝ) :
    PetScanPy.detect_photons x y c a1 a2
      = PetScanPy.detect_photons x' y' c a1 a2 := rfl

/-- C10: when the source lies strictly inside the detector ring, the
discriminant is strictly positive and `photon_to_detector` returns two
(non-null) points — the `none` branch is unreachable. -/
theorem C10_inside_hits (x y θ : ℝ)
    (h : x ^ 2 + y ^ 2 < DETECTOR_RADIUS ^ 2) :
    0 < PetScan3.disc x y θ
    ∧ ∃ p q : ℝ × ℝ, PetScan3.photon_to_detector x y θ = some (p, q) := by
  have hD := disc_pos_of_inside x y θ h
  exact ⟨hD, _, _, by rw [PetScan3.photon_to_detector_eq,
    if_neg (not_lt.mpr hD.le)]⟩

theorem C10_witness :
    ((1/2 : ℝ) ^ 2 + (0 : ℝ) ^ 2 < DETECTOR_RADIUS ^ 2)
    ∧ 0 < PetScan3.disc (1/2) 0 0 :=
  have h : (1/2 : ℝ) ^ 2 + (0 : ℝ) ^ 2 < DETECTOR_RADIUS ^ 2 := by
    norm_num [DETECTOR_RADIUS]
  ⟨h, (C10_inside_hits (1/2) 0 0 h).1⟩

end PETModels
